import Mathlib

/-!
Verification of the `viw` editor control core (`src/state.c`).

The state component of the editor is shallowly embedded: the editor state
`state_t`, the screen `screen_t` and the buffer `buffer_t` become Lean
structures, and each C function of `state.c` becomes a Lean function on
those structures.  `size_t` values are modelled as `Nat`; the one place
where `size_t` wrap-around is observable (`line_size - 1` against an
empty line in `handle_enter`) is modelled with an explicit `% 2 ^ 64`.

The buffer itself (`buffer.c`) is an external collaborator that is not
part of `src/`; the handful of buffer operations that `state.c` calls
are modelled from the specification's document contract (each carries a
doc comment starting `Modelled from the spec:`).  The C pointer-linked
line and character lists are represented by a `List (List Char)` with an
explicit `(current_row, current_char)` cursor; the character node
`row->current` exists iff `current_char < line_size`, its `prev` exists
iff `0 < current_char`, and its `next` exists iff
`current_char + 1 < line_size`.
-/

set_option linter.unusedVariables false

namespace Viw

/-- Editing modes (`state.h`): `NORMAL`, `INSERT_FRONT` (spec: InsertBefore),
`INSERT_BACK` (spec: InsertAfter) and `EX` (spec: CommandLine). -/
inductive MODE where
  | NORMAL
  | INSERT_FRONT
  | INSERT_BACK
  | EX
deriving DecidableEq

/-- Cursor movement directions accepted by `move_current`. -/
inductive DIRECTION where
  | UP
  | DOWN
  | LEFT
  | RIGHT
deriving DecidableEq

/-- Shallow embedding of `buffer_t`: the document is an ordered sequence of
lines of characters, the cursor is the pair `(current_row, current_char)`,
`status_row` is the designated status line, and `dirty` records the
`is_dirty` flag of each row (indexed by row position in the document). -/
@[ext]
structure buffer_t where
  lines : List (List Char)
  current_row : Nat
  current_char : Nat
  status_row : List Char
  dirty : Nat → Bool

/-- The current line `buf->current` (out-of-range cursor rows read as `[]`). -/
def curLine (buf : buffer_t) : List Char := buf.lines.getD buf.current_row []

/-- `buf->current->line_size`. -/
def line_size (buf : buffer_t) : Nat := (curLine buf).length

/-- `buf->num_rows`. -/
def num_rows (buf : buffer_t) : Nat := buf.lines.length

/-- Modelled from the spec: `move_current` (`buffer.c`, not under `src/`)
"move cursor by one of {up, down, left, right}" (§6).  Horizontal moves act
on the character offset within the current line, clamped at the line ends;
vertical moves act on the row index, clamped at the document ends. -/
def move_current (buf : buffer_t) (d : DIRECTION) : buffer_t :=
  match d with
  | .LEFT => { buf with current_char := buf.current_char - 1 }
  | .RIGHT =>
      { buf with current_char :=
          if buf.current_char + 1 < line_size buf then buf.current_char + 1
          else buf.current_char }
  | .UP => { buf with current_row := buf.current_row - 1 }
  | .DOWN =>
      { buf with current_row :=
          if buf.current_row + 1 < num_rows buf then buf.current_row + 1
          else buf.current_row }

/-- Modelled from the spec: `delete_char` (`buffer.c`, not under `src/`)
"delete one character at cursor" (§6).  The character at offset
`current_char` of the current line is removed; the cursor keeps its offset,
which now references the character that slid into the deleted position, and
is clamped back onto the new last character when the deleted one was the
last (the document contract keeps the current-character reference valid,
§7). -/
def delete_char (buf : buffer_t) : buffer_t :=
  let l := (curLine buf).eraseIdx buf.current_char
  { buf with
      lines := buf.lines.set buf.current_row l
      current_char := min buf.current_char (l.length - 1) }

/-- Modelled from the spec: `split_row` (`buffer.c`, not under `src/`)
"split current line at cursor" (§6).  The current line is split at the
current character offset into two consecutive lines and the cursor moves to
the start of the new (lower) line. -/
def split_row (buf : buffer_t) : buffer_t :=
  let l := curLine buf
  { buf with
      lines := buf.lines.take buf.current_row
        ++ [l.take buf.current_char, l.drop buf.current_char]
        ++ buf.lines.drop (buf.current_row + 1)
      current_row := buf.current_row + 1
      current_char := 0 }

/-- Modelled from the spec: `join_row` (`buffer.c`, not under `src/`)
"join current line with previous" (§6).  The previous line and the current
line are replaced by their concatenation and the cursor lands on the join
point. -/
def join_row (buf : buffer_t) : buffer_t :=
  let p := buf.lines.getD (buf.current_row - 1) []
  let l := curLine buf
  { buf with
      lines := buf.lines.take (buf.current_row - 1)
        ++ [p ++ l]
        ++ buf.lines.drop (buf.current_row + 1)
      current_row := buf.current_row - 1
      current_char := p.length }

/-- Modelled from the spec: `append_char` (`buffer.c`, not under `src/`),
used by the `handle_enter` edge case to "insert a placeholder character at
the end" of the current line (§4.6); the cursor moves onto the appended
character. -/
def append_char (buf : buffer_t) (c : Char) : buffer_t :=
  let l := curLine buf ++ [c]
  { buf with
      lines := buf.lines.set buf.current_row l
      current_char := l.length - 1 }

/-- Modelled from the spec: `clear_row` (`buffer.c`, not under `src/`), the
status line's clear-all operation (§6). -/
def clear_row (s : List Char) : List Char := []

/-- Modelled from the spec: `add_char` (`buffer.c`, not under `src/`), the
status line's append-one-character operation (§6). -/
def add_char (s : List Char) (c : Char) : List Char := s ++ [c]

/-- Modelled from the spec: `drop_char` (`buffer.c`, not under `src/`),
"drop the last character of the status line's text" (§4.6). -/
def drop_char (s : List Char) : List Char := s.dropLast

/-- A display-row slot (`window_t`): a non-owning reference to a document
line (modelled as the row index, `none` meaning the empty marker) and the
1-based line number to render. -/
@[ext]
structure window_t where
  r : Option Nat
  line_number : Nat
deriving DecidableEq

/-- The screen (`screen_t`): the number of visible display rows, the
display-row slots (indexed by slot position), and whether the dedicated
status slot has been bound to the buffer's status row yet
(`status_window->r` non-null). -/
@[ext]
structure screen_t where
  num_windows : Nat
  windows : Nat → window_t
  status_linked : Bool

/-- The editor state (`state_t` of `state.h`). -/
@[ext]
structure state_t where
  mode : MODE
  cx : Nat
  cy : Nat
  top_row : Nat
  to_refresh : Bool
  padding_front : Nat
  prev_key : Char
  buf : buffer_t
  scr : screen_t

/-- `update_top_row` (`state.c:10`): scroll down if the current row fell
below the window, scroll up if it lies above it; either branch marks the
state for relayout. -/
def update_top_row (st : state_t) : state_t :=
  let current_row := st.buf.current_row
  let num_windows := st.scr.num_windows
  let st1 :=
    if current_row ≥ st.top_row + num_windows then
      { st with top_row := current_row - num_windows + 1, to_refresh := true }
    else st
  if current_row < st1.top_row then
    { st1 with top_row := current_row, to_refresh := true }
  else st1

/-- The digit-count loop of `update_padding_front` (`state.c:31`):
`while (max_row > 0) { max_row /= 10; num_digits++; }`.  The loop is given
an explicit iteration budget `fuel`; since each iteration divides by 10,
`fuel = n` always suffices for input `n`. -/
def count_digits : Nat → Nat → Nat
  | 0, _ => 0
  | fuel + 1, n => if n = 0 then 0 else count_digits fuel (n / 10) + 1

/-- Decimal digit count of `n` as computed by `update_padding_front`
(`count_digits` with sufficient fuel); `num_digits 0 = 0`. -/
def num_digits (n : Nat) : Nat := count_digits n n

/-- `update_padding_front` (`state.c:27`): the gutter width is the decimal
digit count of the document's row count plus one. -/
def update_padding_front (st : state_t) : state_t :=
  { st with padding_front := num_digits (num_rows st.buf) + 1 }

/-- The text `"-- INSERT --"` of `update_mode_status`. -/
def insert_mode_text : List Char := "-- INSERT --".toList

/-- The text `"-- NORMAL --"` of `update_mode_status`. -/
def normal_mode_text : List Char := "-- NORMAL --".toList

/-- The status text chosen by `update_mode_status` (`state.c:48`): insert
modes and normal mode display a fixed banner, `EX` mode returns without
touching the status row. -/
def statusTextFor : MODE → Option (List Char)
  | .INSERT_BACK => some insert_mode_text
  | .INSERT_FRONT => some insert_mode_text
  | .NORMAL => some normal_mode_text
  | .EX => none

/-- `update_mode_status` (`state.c:42`): clear the status row, then append
the mode banner character by character; in `EX` mode return immediately. -/
def update_mode_status (st : state_t) : state_t :=
  match statusTextFor st.mode with
  | some text =>
      { st with buf :=
          { st.buf with
              status_row := text.foldl add_char (clear_row st.buf.status_row) } }
  | none => st

/-- The cursor coordinates `(cx, cy)` computed by `update_cursor_position`
(`state.c:66`), written exactly as the source does: `cx` is zeroed first,
and the clamp branch compares that zeroed `cx` (not `current_char`) with
the line size. -/
def cursor_coords (st : state_t) : Nat × Nat :=
  let ls := line_size st.buf
  let cx0 : Nat := 0
  let cy0 := st.buf.current_row - st.top_row
  let cx1 := if ls = 0 then 0 else if cx0 ≥ ls then ls - 1 else st.buf.current_char
  let cx2 := if st.mode = .INSERT_BACK ∧ line_size st.buf ≠ 0 then cx1 + 1 else cx1
  if st.mode = .EX then (st.buf.status_row.length, st.scr.num_windows)
  else (cx2 + st.padding_front + 1, cy0)

/-- `update_cursor_position` (`state.c:66`): store the derived coordinates. -/
def update_cursor_position (st : state_t) : state_t :=
  { st with cx := (cursor_coords st).1, cy := (cursor_coords st).2 }

/-- `r->next` of a row, as an index: `none` once the line sequence is
exhausted. -/
def rowNext (nR idx : Nat) : Option Nat :=
  if idx + 1 < nR then some (idx + 1) else none

/-- The backward walk of `update_scr_windows` (`state.c:122`):
`for (i = top_row; i <= current_row; i++)` assigns row `rIdx` (walking
`r = r->prev`) to slot `current_row - i` with line number
`top_row + current_row - i + 1` and stamps the row dirty.  The loop runs
for `m = current_row + 1 - top_row` iterations, matching the C loop's trip
count. -/
def backLoop (top cur : Nat) :
    Nat → (Nat → window_t) → (Nat → Bool) → Nat → Nat →
    ((Nat → window_t) × (Nat → Bool))
  | 0, w, d, _, _ => (w, d)
  | m + 1, w, d, rIdx, i =>
      backLoop top cur m
        (Function.update w (cur - i) ⟨some rIdx, top + cur - i + 1⟩)
        (Function.update d rIdx true)
        (rIdx - 1) (i + 1)

/-- The forward walk of `update_scr_windows` (`state.c:131`):
`for (i = current_row + 1; i < top_row + num_windows; i++)` assigns row `r`
(walking `r = r->next`) to slot `i - top_row` with line number `i + 1`, or
clears the slot to `(none, 0)` once the line sequence is exhausted.  The
loop runs for `m = top_row + num_windows - (current_row + 1)` iterations,
matching the C loop's trip count. -/
def fwdLoop (nR top : Nat) :
    Nat → (Nat → window_t) → (Nat → Bool) → Option Nat → Nat →
    ((Nat → window_t) × (Nat → Bool))
  | 0, w, d, _, _ => (w, d)
  | m + 1, w, d, some idx, i =>
      fwdLoop nR top m
        (Function.update w (i - top) ⟨some idx, i + 1⟩)
        (Function.update d idx true)
        (rowNext nR idx) (i + 1)
  | m + 1, w, d, none, i =>
      fwdLoop nR top m
        (Function.update w (i - top) ⟨none, 0⟩)
        d none (i + 1)

/-- `update_scr_windows` (`state.c:108`): bind the status slot on first
relayout, then fill the display-row slots by the backward and forward
walks. -/
def update_scr_windows (st : state_t) : state_t :=
  let scr0 :=
    if st.scr.status_linked then st.scr
    else { st.scr with status_linked := true }
  let cur := st.buf.current_row
  let top := st.top_row
  let nw := st.scr.num_windows
  let nR := num_rows st.buf
  let bk := backLoop top cur (cur + 1 - top) st.scr.windows st.buf.dirty cur top
  let fw := fwdLoop nR top (top + nw - (cur + 1)) bk.1 bk.2 (rowNext nR cur) (cur + 1)
  { st with
      scr := { scr0 with windows := fw.1 }
      buf := { st.buf with dirty := fw.2 } }

/-- The conditional relayout of `update_state` (`state.c:175`): run
`update_scr_windows` and clear the dirty flag only when `to_refresh` is
set. -/
def relayout_step (st : state_t) : state_t :=
  if st.to_refresh then { update_scr_windows st with to_refresh := false }
  else st

/-- Labels for the derivation steps performed by `update_state`, used to
state properties about their execution order. -/
inductive UpdateStep where
  | statusStep
  | scrollStep
  | paddingStep
  | mappingStep
  | cursorStep
deriving DecidableEq

/-- `update_state` (`state.c:170`) instrumented with the list of derivation
steps it executes, in execution order: mode status, top row, padding,
conditional relayout, cursor position. -/
def update_state_instr (st : state_t) : state_t × List UpdateStep :=
  let st1 := update_mode_status st
  let st2 := update_top_row st1
  let st3 := update_padding_front st2
  let st4 := relayout_step st3
  (update_cursor_position st4,
    [UpdateStep.statusStep, UpdateStep.scrollStep, UpdateStep.paddingStep]
      ++ (if st3.to_refresh then [UpdateStep.mappingStep] else [])
      ++ [UpdateStep.cursorStep])

/-- `update_state` (`state.c:170`): the single state-recompute entry point. -/
def update_state (st : state_t) : state_t := (update_state_instr st).1

/-- The derivation steps executed by one call of `update_state`, in
execution order. -/
def update_state_trace (st : state_t) : List UpdateStep := (update_state_instr st).2

/-- `move_cursor` (`state.c:183`). -/
def move_cursor (st : state_t) (d : DIRECTION) : state_t :=
  { st with buf := move_current st.buf d }

/-- `line_size - 1` computed in `size_t` arithmetic (`state.c:189`): for an
empty line this wraps to `2 ^ 64 - 1` instead of clamping to `0`. -/
def size_t_sub_one (n : Nat) : Nat := (n + 2 ^ 64 - 1) % 2 ^ 64

/-- `handle_enter` (`state.c:187`): the `INSERT_BACK` end-of-line edge case
appends a placeholder, splits after it and deletes it; otherwise
`INSERT_BACK` on a non-empty line first normalizes to `INSERT_FRONT` one
character to the right; finally the current line is split at the cursor and
relayout is marked. -/
def handle_enter (st : state_t) : state_t :=
  if st.mode = .INSERT_BACK ∧ st.buf.current_char = size_t_sub_one (line_size st.buf) then
    { st with
        buf := delete_char (split_row (append_char st.buf '0'))
        to_refresh := true }
  else
    let st1 :=
      if st.mode = .INSERT_BACK ∧ line_size st.buf ≠ 0 then
        { st with mode := .INSERT_FRONT, buf := move_current st.buf .RIGHT }
      else st
    { st1 with buf := split_row st1.buf, to_refresh := true }

/-- The `EX`-mode block of `handle_backspace` (`state.c:212`): move the
document cursor left and drop the last character of the status row. -/
def ex_backspace (buf : buffer_t) : buffer_t :=
  let b := move_current buf .LEFT
  { b with status_row := drop_char b.status_row }

/-- `handle_backspace` (`state.c:208`) with an explicit recursion budget
`fuel` for its self-call (the `INSERT_BACK` offset-0 normalization); `none`
means the budget was exhausted.  Pointer tests are rendered as offset
comparisons: `!r->current->prev` is `current_char = 0`, `!r->current` is
`line_size ≤ current_char`, and `r->current->next` after the deletion is
`current_char + 1 < line_size` of the updated buffer. -/
def handle_backspace_core : Nat → state_t → Option state_t
  | 0, _ => none
  | fuel + 1, st0 =>
      let st := if st0.mode = .EX then { st0 with buf := ex_backspace st0.buf } else st0
      if st.mode = .INSERT_FRONT then
        if st.buf.current_char = 0 then
          some { st with buf := join_row st.buf, to_refresh := true }
        else
          some { st with buf := delete_char (move_current st.buf .LEFT) }
      else if st.mode = .INSERT_BACK then
        if line_size st.buf ≤ st.buf.current_char then
          some { st with buf := join_row st.buf, to_refresh := true }
        else if st.buf.current_char = 0 then
          if line_size st.buf = 1 then
            some { st with buf := delete_char st.buf }
          else
            handle_backspace_core fuel
              { st with mode := .INSERT_FRONT, buf := move_current st.buf .RIGHT }
        else
          let b := delete_char st.buf
          some { st with buf :=
            if b.current_char + 1 < line_size b then move_current b .LEFT else b }
      else
        some st

/-- `handle_backspace` (`state.c:208`): the recursion budget 2 always
suffices (proved below). -/
def handle_backspace (st : state_t) : state_t :=
  (handle_backspace_core 2 st).getD st

/-- `set_prev_key` (`state.c:256`). -/
def set_prev_key (st : state_t) (c : Char) : state_t := { st with prev_key := c }

/-- `reset_prev_key` (`state.c:260`). -/
def reset_prev_key (st : state_t) : state_t := { st with prev_key := '\x00' }

/-- A fully concrete editor state, used to evaluate the embedded code on
explicit inputs. -/
def mkState (m : MODE) (lines : List (List Char)) (row ch top pad nw : Nat)
    (rf : Bool) : state_t :=
  { mode := m
    cx := 0
    cy := 0
    top_row := top
    to_refresh := rf
    padding_front := pad
    prev_key := '\x00'
    buf :=
      { lines := lines
        current_row := row
        current_char := ch
        status_row := []
        dirty := fun _ => false }
    scr :=
      { num_windows := nw
        windows := fun _ => ⟨none, 0⟩
        status_linked := false } }

/-- Concrete state for C1: `InsertBefore`, one 2-character line, cursor
offset 5 (past the last character), `topRow = 0`, gutter width 2. -/
def c1_state : state_t := mkState .INSERT_FRONT [['a', 'b']] 0 5 0 2 1 false

/-- Concrete state for the C2 counterexample: `topRow = 0`,
`currentRow = 0`, `numWindows = 0`. -/
def c2_cex_state : state_t := mkState .NORMAL [[]] 0 0 0 2 0 false

/-- Concrete state for the C2 witness: `topRow = 2`, `currentRow = 3`,
`numWindows = 4` (the invariant already holds). -/
def c2_wit_state : state_t := mkState .NORMAL [[], [], [], []] 3 0 2 2 4 false

/-- Concrete state for C3: a state with the relayout flag pending. -/
def c3_state : state_t := mkState .NORMAL [['a']] 0 0 0 2 1 true

/-- Concrete idle state for C3: relayout flag clear and the current row
already inside the viewport, so no step sets the flag and the mapping
step is skipped. -/
def c3_idle_state : state_t := mkState .NORMAL [[], [], [], []] 3 0 2 2 4 false

/-- Concrete 9-row document for C4. -/
def c4_state9 : state_t := mkState .NORMAL (List.replicate 9 []) 0 0 0 0 1 false

/-- Concrete 10-row document for C4. -/
def c4_state10 : state_t := mkState .NORMAL (List.replicate 10 []) 0 0 0 0 1 false

/-- Concrete state for C5: a 10-row document with `topRow = 3`,
`numWindows = 4`, `currentRow = 5` (the spec's worked example). -/
def c5_state : state_t := mkState .NORMAL (List.replicate 10 ['x']) 5 0 3 2 4 false

/-- Concrete state for C7: `InsertBefore` at offset 0 of the second line. -/
def c7_state : state_t := mkState .INSERT_FRONT [['a'], ['b', 'c']] 1 0 0 2 2 false

/-- Concrete state for the C8 counterexample: `InsertAfter` at offset 1 of
the 3-character line `"abc"`. -/
def c8_cex_state : state_t := mkState .INSERT_BACK [['a', 'b', 'c']] 0 1 0 2 1 false

/-- Concrete state for the C8 witness: `InsertAfter` at offset 1 of the
4-character line `"abcd"`. -/
def c8_wit_state : state_t := mkState .INSERT_BACK [['a', 'b', 'c', 'd']] 0 1 0 2 1 false

/-- Concrete state for C10: `Normal` mode, cursor at offset 1 of a
3-character line. -/
def c10_state : state_t := mkState .NORMAL [['a', 'b', 'c']] 0 1 0 2 1 false

/-! ## Helper lemmas -/

theorem update_top_row_inv (st : state_t) (h : 1 ≤ st.scr.num_windows) :
    (update_top_row st).top_row ≤ st.buf.current_row ∧
      st.buf.current_row < (update_top_row st).top_row + st.scr.num_windows := by
  simp only [update_top_row]
  split <;> split <;> simp_all <;> omega

theorem update_top_row_no_fire (st : state_t)
    (h1 : st.top_row ≤ st.buf.current_row)
    (h2 : st.buf.current_row < st.top_row + st.scr.num_windows) :
    update_top_row st = st := by
  have h3 : ¬ (st.buf.current_row ≥ st.top_row + st.scr.num_windows) := by omega
  simp only [update_top_row, if_neg h3]
  rw [if_neg (by omega)]

theorem count_digits_spec (fuel : Nat) :
    ∀ n, n ≤ fuel → count_digits fuel n = (Nat.digits 10 n).length := by
  induction fuel with
  | zero =>
      intro n hn
      have : n = 0 := by omega
      subst this
      simp [count_digits]
  | succ f ih =>
      intro n hn
      by_cases hz : n = 0
      · subst hz; simp [count_digits]
      · have hdiv : n / 10 < n := Nat.div_lt_self (Nat.pos_of_ne_zero hz) (by norm_num)
        rw [count_digits, if_neg hz, ih (n / 10) (by omega),
          Nat.digits_def' (by norm_num : 1 < 10) (Nat.pos_of_ne_zero hz)]
        simp

theorem num_digits_spec (n : Nat) : num_digits n = (Nat.digits 10 n).length :=
  count_digits_spec n n le_rfl

theorem num_digits_pos (n : Nat) (h : 1 ≤ n) : 1 ≤ num_digits n := by
  rw [num_digits_spec]
  have : Nat.digits 10 n ≠ [] := Nat.digits_ne_nil_iff_ne_zero.mpr (by omega)
  exact List.length_pos.mpr this

theorem line_size_row_lt (buf : buffer_t) (h : 0 < line_size buf) :
    buf.current_row < num_rows buf := by
  by_contra hc
  have hlen : buf.lines.length ≤ buf.current_row := by
    unfold num_rows at hc; omega
  have he : curLine buf = [] := by
    unfold curLine
    simp [List.getD, List.getElem?_eq_none hlen]
  unfold line_size at h
  rw [he] at h
  simp at h

theorem getD_set_self (l : List (List Char)) (i : Nat) (v : List Char)
    (h : i < l.length) : (l.set i v).getD i [] = v := by
  simp [List.getD, List.getElem?_set, h]

theorem handle_backspace_core_front (fuel : Nat) (st : state_t)
    (h : st.mode = .INSERT_FRONT) :
    handle_backspace_core (fuel + 1) st =
      some (if st.buf.current_char = 0 then
              { st with buf := join_row st.buf, to_refresh := true }
            else
              { st with buf := delete_char (move_current st.buf .LEFT) }) := by
  rw [handle_backspace_core]
  simp [h]
  split <;> rfl

theorem handle_backspace_core_normal (fuel : Nat) (st : state_t)
    (h : st.mode = .NORMAL) :
    handle_backspace_core (fuel + 1) st = some st := by
  rw [handle_backspace_core]
  simp [h]

theorem handle_backspace_core_ex (fuel : Nat) (st : state_t)
    (h : st.mode = .EX) :
    handle_backspace_core (fuel + 1) st =
      some { st with buf := ex_backspace st.buf } := by
  rw [handle_backspace_core]
  simp [h]

theorem handle_backspace_core_front_one (st : state_t)
    (h : st.mode = .INSERT_FRONT) :
    handle_backspace_core 1 st =
      some (if st.buf.current_char = 0 then
              { st with buf := join_row st.buf, to_refresh := true }
            else
              { st with buf := delete_char (move_current st.buf .LEFT) }) :=
  handle_backspace_core_front 0 st h

theorem handle_backspace_core_back (fuel : Nat) (st : state_t)
    (h : st.mode = .INSERT_BACK) :
    handle_backspace_core (fuel + 1) st =
      (if line_size st.buf ≤ st.buf.current_char then
        some { st with buf := join_row st.buf, to_refresh := true }
      else if st.buf.current_char = 0 then
        if line_size st.buf = 1 then
          some { st with buf := delete_char st.buf }
        else
          handle_backspace_core fuel
            { st with mode := .INSERT_FRONT, buf := move_current st.buf .RIGHT }
      else
        some { st with buf :=
          if (delete_char st.buf).current_char + 1 < line_size (delete_char st.buf) then
            move_current (delete_char st.buf) .LEFT
          else delete_char st.buf }) := by
  rw [handle_backspace_core]
  simp [h]

theorem update_mode_status_to_refresh (st : state_t) :
    (update_mode_status st).to_refresh = st.to_refresh := by
  unfold update_mode_status
  split <;> rfl

theorem update_top_row_refresh_true (st : state_t) (h : st.to_refresh = true) :
    (update_top_row st).to_refresh = true := by
  simp only [update_top_row]
  split <;> split <;> simp [h]

theorem backLoop_win (top cur : Nat) :
    ∀ (m i rIdx : Nat) (w : Nat → window_t) (d : Nat → Bool) (s : Nat),
      i + m = cur + 1 →
      (backLoop top cur m w d rIdx i).1 s =
        if s < m then ⟨some (rIdx - (m - 1 - s)), top + s + 1⟩ else w s := by
  intro m
  induction m with
  | zero =>
      intro i rIdx w d s h
      simp [backLoop]
  | succ m ih =>
      intro i rIdx w d s h
      rw [backLoop, ih (i + 1) (rIdx - 1) _ _ s (by omega)]
      by_cases hs : s < m
      · rw [if_pos hs, if_pos (by omega)]
        have hv : rIdx - 1 - (m - 1 - s) = rIdx - (m + 1 - 1 - s) := by omega
        rw [hv]
      · by_cases hs1 : s < m + 1
        · rw [if_neg hs, if_pos hs1]
          have hci : cur - i = s := by omega
          have hv : top + cur - i + 1 = top + s + 1 := by omega
          have hr : rIdx - (m + 1 - 1 - s) = rIdx := by omega
          rw [hci, hv, hr, Function.update_same]
        · rw [if_neg hs, if_neg hs1,
            Function.update_noteq (show s ≠ cur - i by omega)]

theorem fwdLoop_win (nR top : Nat) :
    ∀ (m i : Nat) (w : Nat → window_t) (d : Nat → Bool) (s : Nat),
      top ≤ i →
      (fwdLoop nR top m w d (if i < nR then some i else none) i).1 s =
        if i - top ≤ s ∧ s < i - top + m then
          (if top + s < nR then ⟨some (top + s), top + s + 1⟩ else ⟨none, 0⟩)
        else w s := by
  intro m
  induction m with
  | zero =>
      intro i w d s hi
      have hz : (fwdLoop nR top 0 w d (if i < nR then some i else none) i).1 s
          = w s := rfl
      rw [hz, if_neg (by omega)]
  | succ m ih =>
      intro i w d s hi
      by_cases hin : i < nR
      · rw [if_pos hin, fwdLoop,
          show rowNext nR i = (if i + 1 < nR then some (i + 1) else none) from rfl,
          ih (i + 1) _ _ s (by omega)]
        by_cases h1 : i + 1 - top ≤ s ∧ s < i + 1 - top + m
        · rw [if_pos h1,
            if_pos (show i - top ≤ s ∧ s < i - top + (m + 1) by omega)]
        · rw [if_neg h1]
          by_cases hse : s = i - top
          · subst hse
            rw [Function.update_same, if_pos (by omega),
              if_pos (by omega), show top + (i - top) = i from by omega]
          · rw [Function.update_noteq hse, if_neg (by omega)]
      · rw [if_neg hin, fwdLoop]
        have ih' := ih (i + 1) (Function.update w (i - top) ⟨none, 0⟩) d s (by omega)
        rw [if_neg (show ¬ i + 1 < nR by omega)] at ih'
        rw [ih']
        by_cases h1 : i + 1 - top ≤ s ∧ s < i + 1 - top + m
        · rw [if_pos h1,
            if_pos (show i - top ≤ s ∧ s < i - top + (m + 1) by omega)]
        · rw [if_neg h1]
          by_cases hse : s = i - top
          · subst hse
            rw [Function.update_same, if_pos (by omega),
              if_neg (by omega)]
          · rw [Function.update_noteq hse, if_neg (by omega)]

/-! ### Field-preservation lemmas for the `update_state` pipeline -/

@[simp] theorem ums_mode (st : state_t) :
    (update_mode_status st).mode = st.mode := by
  unfold update_mode_status; split <;> rfl

@[simp] theorem ums_cx (st : state_t) :
    (update_mode_status st).cx = st.cx := by
  unfold update_mode_status; split <;> rfl

@[simp] theorem ums_cy (st : state_t) :
    (update_mode_status st).cy = st.cy := by
  unfold update_mode_status; split <;> rfl

@[simp] theorem ums_top_row (st : state_t) :
    (update_mode_status st).top_row = st.top_row := by
  unfold update_mode_status; split <;> rfl

@[simp] theorem ums_to_refresh (st : state_t) :
    (update_mode_status st).to_refresh = st.to_refresh := by
  unfold update_mode_status; split <;> rfl

@[simp] theorem ums_padding (st : state_t) :
    (update_mode_status st).padding_front = st.padding_front := by
  unfold update_mode_status; split <;> rfl

@[simp] theorem ums_prev_key (st : state_t) :
    (update_mode_status st).prev_key = st.prev_key := by
  unfold update_mode_status; split <;> rfl

@[simp] theorem ums_scr (st : state_t) :
    (update_mode_status st).scr = st.scr := by
  unfold update_mode_status; split <;> rfl

@[simp] theorem ums_lines (st : state_t) :
    (update_mode_status st).buf.lines = st.buf.lines := by
  unfold update_mode_status; split <;> rfl

@[simp] theorem ums_current_row (st : state_t) :
    (update_mode_status st).buf.current_row = st.buf.current_row := by
  unfold update_mode_status; split <;> rfl

@[simp] theorem ums_current_char (st : state_t) :
    (update_mode_status st).buf.current_char = st.buf.current_char := by
  unfold update_mode_status; split <;> rfl

@[simp] theorem ums_dirty (st : state_t) :
    (update_mode_status st).buf.dirty = st.buf.dirty := by
  unfold update_mode_status; split <;> rfl

@[simp] theorem utr_mode (st : state_t) :
    (update_top_row st).mode = st.mode := by
  simp only [update_top_row]; split <;> split <;> rfl

@[simp] theorem utr_cx (st : state_t) :
    (update_top_row st).cx = st.cx := by
  simp only [update_top_row]; split <;> split <;> rfl

@[simp] theorem utr_cy (st : state_t) :
    (update_top_row st).cy = st.cy := by
  simp only [update_top_row]; split <;> split <;> rfl

@[simp] theorem utr_padding (st : state_t) :
    (update_top_row st).padding_front = st.padding_front := by
  simp only [update_top_row]; split <;> split <;> rfl

@[simp] theorem utr_prev_key (st : state_t) :
    (update_top_row st).prev_key = st.prev_key := by
  simp only [update_top_row]; split <;> split <;> rfl

@[simp] theorem utr_buf (st : state_t) :
    (update_top_row st).buf = st.buf := by
  simp only [update_top_row]; split <;> split <;> rfl

@[simp] theorem utr_scr (st : state_t) :
    (update_top_row st).scr = st.scr := by
  simp only [update_top_row]; split <;> split <;> rfl

@[simp] theorem upf_mode (st : state_t) :
    (update_padding_front st).mode = st.mode := rfl

@[simp] theorem upf_cx (st : state_t) :
    (update_padding_front st).cx = st.cx := rfl

@[simp] theorem upf_cy (st : state_t) :
    (update_padding_front st).cy = st.cy := rfl

@[simp] theorem upf_top_row (st : state_t) :
    (update_padding_front st).top_row = st.top_row := rfl

@[simp] theorem upf_to_refresh (st : state_t) :
    (update_padding_front st).to_refresh = st.to_refresh := rfl

@[simp] theorem upf_prev_key (st : state_t) :
    (update_padding_front st).prev_key = st.prev_key := rfl

@[simp] theorem upf_buf (st : state_t) :
    (update_padding_front st).buf = st.buf := rfl

@[simp] theorem upf_scr (st : state_t) :
    (update_padding_front st).scr = st.scr := rfl

@[simp] theorem upf_padding (st : state_t) :
    (update_padding_front st).padding_front
      = num_digits (num_rows st.buf) + 1 := rfl

@[simp] theorem usw_mode (st : state_t) :
    (update_scr_windows st).mode = st.mode := rfl

@[simp] theorem usw_cx (st : state_t) :
    (update_scr_windows st).cx = st.cx := rfl

@[simp] theorem usw_cy (st : state_t) :
    (update_scr_windows st).cy = st.cy := rfl

@[simp] theorem usw_top_row (st : state_t) :
    (update_scr_windows st).top_row = st.top_row := rfl

@[simp] theorem usw_to_refresh (st : state_t) :
    (update_scr_windows st).to_refresh = st.to_refresh := rfl

@[simp] theorem usw_padding (st : state_t) :
    (update_scr_windows st).padding_front = st.padding_front := rfl

@[simp] theorem usw_prev_key (st : state_t) :
    (update_scr_windows st).prev_key = st.prev_key := rfl

@[simp] theorem usw_lines (st : state_t) :
    (update_scr_windows st).buf.lines = st.buf.lines := rfl

@[simp] theorem usw_current_row (st : state_t) :
    (update_scr_windows st).buf.current_row = st.buf.current_row := rfl

@[simp] theorem usw_current_char (st : state_t) :
    (update_scr_windows st).buf.current_char = st.buf.current_char := rfl

@[simp] theorem usw_status_row (st : state_t) :
    (update_scr_windows st).buf.status_row = st.buf.status_row := rfl

@[simp] theorem usw_num_windows (st : state_t) :
    (update_scr_windows st).scr.num_windows = st.scr.num_windows := by
  unfold update_scr_windows; split <;> rfl

@[simp] theorem usw_linked (st : state_t) :
    (update_scr_windows st).scr.status_linked = true := by
  unfold update_scr_windows; split <;> simp_all

@[simp] theorem rel_mode (st : state_t) :
    (relayout_step st).mode = st.mode := by
  unfold relayout_step; split <;> simp

@[simp] theorem rel_cx (st : state_t) :
    (relayout_step st).cx = st.cx := by
  unfold relayout_step; split <;> simp

@[simp] theorem rel_cy (st : state_t) :
    (relayout_step st).cy = st.cy := by
  unfold relayout_step; split <;> simp

@[simp] theorem rel_top_row (st : state_t) :
    (relayout_step st).top_row = st.top_row := by
  unfold relayout_step; split <;> simp

@[simp] theorem rel_padding (st : state_t) :
    (relayout_step st).padding_front = st.padding_front := by
  unfold relayout_step; split <;> simp

@[simp] theorem rel_prev_key (st : state_t) :
    (relayout_step st).prev_key = st.prev_key := by
  unfold relayout_step; split <;> simp

@[simp] theorem rel_lines (st : state_t) :
    (relayout_step st).buf.lines = st.buf.lines := by
  unfold relayout_step; split <;> simp

@[simp] theorem rel_current_row (st : state_t) :
    (relayout_step st).buf.current_row = st.buf.current_row := by
  unfold relayout_step; split <;> simp

@[simp] theorem rel_current_char (st : state_t) :
    (relayout_step st).buf.current_char = st.buf.current_char := by
  unfold relayout_step; split <;> simp

@[simp] theorem rel_status_row (st : state_t) :
    (relayout_step st).buf.status_row = st.buf.status_row := by
  unfold relayout_step; split <;> simp

@[simp] theorem rel_num_windows (st : state_t) :
    (relayout_step st).scr.num_windows = st.scr.num_windows := by
  unfold relayout_step; split <;> simp

@[simp] theorem rel_to_refresh (st : state_t) :
    (relayout_step st).to_refresh = false := by
  unfold relayout_step; split <;> simp_all

@[simp] theorem ucp_mode (st : state_t) :
    (update_cursor_position st).mode = st.mode := rfl

@[simp] theorem ucp_top_row (st : state_t) :
    (update_cursor_position st).top_row = st.top_row := rfl

@[simp] theorem ucp_to_refresh (st : state_t) :
    (update_cursor_position st).to_refresh = st.to_refresh := rfl

@[simp] theorem ucp_padding (st : state_t) :
    (update_cursor_position st).padding_front = st.padding_front := rfl

@[simp] theorem ucp_prev_key (st : state_t) :
    (update_cursor_position st).prev_key = st.prev_key := rfl

@[simp] theorem ucp_buf (st : state_t) :
    (update_cursor_position st).buf = st.buf := rfl

@[simp] theorem ucp_scr (st : state_t) :
    (update_cursor_position st).scr = st.scr := rfl

/-! ### Idempotence machinery for `update_state` -/

theorem cursor_coords_congr (s t : state_t)
    (hb : s.buf = t.buf) (hm : s.mode = t.mode) (ht : s.top_row = t.top_row)
    (hp : s.padding_front = t.padding_front)
    (hw : s.scr.num_windows = t.scr.num_windows) :
    cursor_coords s = cursor_coords t := by
  unfold cursor_coords
  simp only [hb, hm, ht, hp, hw]

theorem ucp_idem (st : state_t) :
    update_cursor_position (update_cursor_position st)
      = update_cursor_position st := by
  have hcc : cursor_coords (update_cursor_position st) = cursor_coords st :=
    cursor_coords_congr _ _ rfl rfl rfl rfl rfl
  show ({ update_cursor_position st with
      cx := (cursor_coords (update_cursor_position st)).1
      cy := (cursor_coords (update_cursor_position st)).2 } : state_t)
    = update_cursor_position st
  rw [hcc]
  rfl

theorem ums_idem_gen (t S : state_t) (hm : S.mode = t.mode)
    (hs : S.buf.status_row = (update_mode_status t).buf.status_row) :
    update_mode_status S = S := by
  cases hmm : statusTextFor t.mode with
  | none =>
      unfold update_mode_status
      rw [show statusTextFor S.mode = none from by rw [hm, hmm]]
  | some txt =>
      simp only [update_mode_status, hmm] at hs
      unfold update_mode_status
      rw [show statusTextFor S.mode = some txt from by rw [hm, hmm]]
      have hv : txt.foldl add_char (clear_row S.buf.status_row)
          = S.buf.status_row := by
        rw [hs]
        rfl
      show ({ S with buf := { S.buf with
        status_row := txt.foldl add_char (clear_row S.buf.status_row) } } : state_t) = S
      rw [hv]

theorem upf_id (st : state_t)
    (h : st.padding_front = num_digits (num_rows st.buf) + 1) :
    update_padding_front st = st := by
  unfold update_padding_front
  rw [← h]

theorem rel_id (st : state_t) (h : st.to_refresh = false) :
    relayout_step st = st := by
  simp [relayout_step, h]

theorem utr_n0_top (st : state_t) (hn : st.scr.num_windows = 0) :
    (update_top_row st).top_row = st.buf.current_row := by
  simp only [update_top_row, hn]
  split <;> split <;> simp_all

theorem utr_n0_refresh (st : state_t) (hn : st.scr.num_windows = 0) :
    (update_top_row st).to_refresh = true := by
  simp only [update_top_row, hn]
  split <;> split <;> simp_all

theorem utr_n0_eq (st : state_t) (hn : st.scr.num_windows = 0)
    (hc : st.buf.current_row = st.top_row) :
    update_top_row st = { st with to_refresh := true } := by
  apply state_t.ext <;>
    simp [utr_n0_top st hn, utr_n0_refresh st hn, hc]

theorem backLoop_one (top cur : Nat) (w : Nat → window_t) (d : Nat → Bool)
    (rIdx i : Nat) :
    backLoop top cur 1 w d rIdx i =
      (Function.update w (cur - i) ⟨some rIdx, top + cur - i + 1⟩,
        Function.update d rIdx true) := rfl

theorem fwdLoop_zero (nR top : Nat) (w : Nat → window_t) (d : Nat → Bool)
    (r : Option Nat) (i : Nat) :
    fwdLoop nR top 0 w d r i = (w, d) := rfl

theorem usw_n0 (st : state_t) (hn : st.scr.num_windows = 0)
    (hc : st.buf.current_row = st.top_row) :
    update_scr_windows st =
      { st with
          scr := { st.scr with
            windows := Function.update st.scr.windows 0
              ⟨some st.top_row, st.top_row + 1⟩
            status_linked := true }
          buf := { st.buf with
            dirty := Function.update st.buf.dirty st.top_row true } } := by
  have hback : backLoop st.top_row st.buf.current_row
      (st.buf.current_row + 1 - st.top_row) st.scr.windows st.buf.dirty
      st.buf.current_row st.top_row =
      (Function.update st.scr.windows 0 ⟨some st.top_row, st.top_row + 1⟩,
        Function.update st.buf.dirty st.top_row true) := by
    rw [hc, show st.top_row + 1 - st.top_row = 1 from by omega, backLoop_one,
      Nat.sub_self, show st.top_row + st.top_row - st.top_row = st.top_row
        from by omega]
  simp only [update_scr_windows]
  rw [hback]
  rw [show st.top_row + st.scr.num_windows - (st.buf.current_row + 1) = 0
    from by omega, fwdLoop_zero]
  by_cases hl : st.scr.status_linked
  · rw [if_pos hl]
    apply state_t.ext <;> try rfl
    apply screen_t.ext <;> simp [hl]
  · rw [if_neg hl]

theorem update_state_eq (t : state_t) :
    update_state t =
      update_cursor_position (relayout_step (update_padding_front
        (update_top_row (update_mode_status t)))) := rfl

theorem update_state_idem_pos (st : state_t) (hn : 1 ≤ st.scr.num_windows) :
    update_state (update_state st) = update_state st := by
  rw [update_state_eq st, update_state_eq]
  set S := update_cursor_position (relayout_step (update_padding_front
    (update_top_row (update_mode_status st)))) with hS
  have hmode : S.mode = st.mode := by rw [hS]; simp
  have hstatus : S.buf.status_row = (update_mode_status st).buf.status_row := by
    rw [hS]; simp
  have h1 : update_mode_status S = S := ums_idem_gen st S hmode hstatus
  have htop : S.top_row = (update_top_row (update_mode_status st)).top_row := by
    rw [hS]; simp
  have hcur : S.buf.current_row = st.buf.current_row := by rw [hS]; simp
  have hnw : S.scr.num_windows = st.scr.num_windows := by rw [hS]; simp
  have hinv := update_top_row_inv (update_mode_status st) (by simpa using hn)
  simp only [ums_current_row, ums_scr] at hinv
  have h2 : update_top_row S = S :=
    update_top_row_no_fire S (by rw [htop, hcur]; exact hinv.1)
      (by rw [htop, hcur, hnw]; exact hinv.2)
  have hpad : S.padding_front = num_digits (num_rows S.buf) + 1 := by
    rw [hS]; simp [num_rows]
  have h3 : update_padding_front S = S := upf_id S hpad
  have hrefresh : S.to_refresh = false := by rw [hS]; simp
  have h4 : relayout_step S = S := rel_id S hrefresh
  have h5 : update_cursor_position S = S := by rw [hS]; exact ucp_idem _
  rw [h1, h2, h3, h4, h5]

theorem update_state_idem_zero (st : state_t) (hn : st.scr.num_windows = 0) :
    update_state (update_state st) = update_state st := by
  rw [update_state_eq st, update_state_eq]
  set C := update_padding_front (update_top_row (update_mode_status st)) with hC
  set S := update_cursor_position (relayout_step C) with hS
  have hCnw : C.scr.num_windows = 0 := by rw [hC]; simpa using hn
  have hCtop : C.top_row = st.buf.current_row := by
    rw [hC]
    simp only [upf_top_row]
    rw [utr_n0_top (update_mode_status st) (by simpa using hn)]
    simp
  have hCcur : C.buf.current_row = st.buf.current_row := by rw [hC]; simp
  have hCrefresh : C.to_refresh = true := by
    rw [hC]
    simp only [upf_to_refresh]
    exact utr_n0_refresh _ (by simpa using hn)
  have hD : relayout_step C = { update_scr_windows C with to_refresh := false } := by
    unfold relayout_step
    rw [if_pos hCrefresh]
  have hswC := usw_n0 C hCnw (hCcur.trans hCtop.symm)
  have hmode : S.mode = st.mode := by rw [hS, hC]; simp
  have hstatus : S.buf.status_row = (update_mode_status st).buf.status_row := by
    rw [hS, hC]; simp
  have h1 : update_mode_status S = S := ums_idem_gen st S hmode hstatus
  have hcur : S.buf.current_row = st.buf.current_row := by rw [hS, hC]; simp
  have hnwS : S.scr.num_windows = 0 := by rw [hS, hC]; simpa using hn
  have htop : S.top_row = C.top_row := by rw [hS]; simp
  have hrefresh : S.to_refresh = false := by rw [hS]; simp
  have hscr : S.scr = (update_scr_windows C).scr := by
    rw [hS, ucp_scr, hD]
  have hSwin : S.scr.windows =
      Function.update C.scr.windows 0 ⟨some C.top_row, C.top_row + 1⟩ := by
    rw [hscr, hswC]
  have hSlinked : S.scr.status_linked = true := by
    rw [hscr, hswC]
  have hSdirty : S.buf.dirty =
      Function.update C.buf.dirty C.top_row true := by
    rw [hS, ucp_buf, hD]
    show (update_scr_windows C).buf.dirty = _
    rw [hswC]
  have h2 : update_top_row S = { S with to_refresh := true } :=
    utr_n0_eq S hnwS (by rw [hcur, htop, hCtop])
  have hpad : S.padding_front = num_digits (num_rows S.buf) + 1 := by
    rw [hS, hC]; simp [num_rows]
  have h3 : update_padding_front { S with to_refresh := true }
      = { S with to_refresh := true } := upf_id _ hpad
  have h4 : relayout_step { S with to_refresh := true } = S := by
    unfold relayout_step
    rw [if_pos rfl,
      usw_n0 ({ S with to_refresh := true }) hnwS (by rw [hcur, htop, hCtop])]
    have hw : Function.update S.scr.windows 0 ⟨some S.top_row, S.top_row + 1⟩
        = S.scr.windows := by
      rw [htop, hSwin, Function.update_idem]
    have hd : Function.update S.buf.dirty S.top_row true = S.buf.dirty := by
      rw [htop, hSdirty, Function.update_idem]
    apply state_t.ext <;> try rfl
    · exact hrefresh.symm
    · show ({ S.buf with dirty :=
          Function.update S.buf.dirty S.top_row true } : buffer_t) = S.buf
      rw [hd]
    · show ({ S.scr with
          windows := Function.update S.scr.windows 0
            ⟨some S.top_row, S.top_row + 1⟩
          status_linked := true } : screen_t) = S.scr
      rw [hw]
      apply screen_t.ext <;> simp [hSlinked]
  have h5 : update_cursor_position S = S := by rw [hS]; exact ucp_idem _
  rw [h1, h2, h3, h4, h5]

/-! ## Claims -/

/-- C1 (code bug): at `mode = InsertBefore`, line `"ab"` (length 2), offset
5, `topRow = currentRow = 0`, gutter width 2, the code renders column
`5 + 2 + 1 = 8`: the offset is **not** clamped to `lineLength - 1`,
because the clamp branch of `update_cursor_position` (`state.c:80`)
compares the just-zeroed `st->cx` instead of `current_char` and therefore
never fires.  The claimed (and clearly intended) column is
`1 + 2 + 1 = 4`. -/
theorem claim1_cursor_unclamped :
    (update_cursor_position c1_state).cx = 5 + 2 + 1 ∧
      (update_cursor_position c1_state).cx ≠ 1 + 2 + 1 ∧
      (update_cursor_position c1_state).cy = 0 := by decide

/-- C2 counterexample: with `topRow = 0`, `currentRow = 0`,
`numWindows = 0` the claimed invariant
`topRow ≤ currentRow < topRow + numWindows` fails after the Viewport
Controller runs. -/
theorem claim2_counterexample :
    ¬ ((update_top_row c2_cex_state).top_row ≤ c2_cex_state.buf.current_row ∧
        c2_cex_state.buf.current_row <
          (update_top_row c2_cex_state).top_row + c2_cex_state.scr.num_windows) := by
  decide

/-- C2 (amended): for all `(topRow, currentRow, numWindows)` with
`numWindows ≥ 1`, after the Viewport Controller runs,
`topRow ≤ currentRow < topRow + numWindows`; and (for any `numWindows`) if
that relation already held before the call, the whole state — in
particular `topRow` and the relayout-needed flag — is left untouched. -/
theorem claim2_viewport_invariant (st : state_t) (h : 1 ≤ st.scr.num_windows) :
    ((update_top_row st).top_row ≤ st.buf.current_row ∧
        st.buf.current_row < (update_top_row st).top_row + st.scr.num_windows) ∧
      (st.top_row ≤ st.buf.current_row ∧
          st.buf.current_row < st.top_row + st.scr.num_windows →
        update_top_row st = st) :=
  ⟨update_top_row_inv st h, fun hp => update_top_row_no_fire st hp.1 hp.2⟩

/-- C2 witness: at `topRow = 2`, `currentRow = 3`, `numWindows = 4` the
invariant holds afterwards and the already-valid state is untouched. -/
theorem claim2_witness :
    ((update_top_row c2_wit_state).top_row ≤ 3 ∧
        3 < (update_top_row c2_wit_state).top_row + 4) ∧
      update_top_row c2_wit_state = c2_wit_state := by
  have h := claim2_viewport_invariant c2_wit_state (by decide)
  exact ⟨h.1, h.2 (by decide)⟩

/-- C4: for every document with at least one row (the buffer always owns a
current line), the recomputed gutter width equals the decimal digit count
of the row count plus 1 and is at least 2; a 9-row document gives width 2
and a 10-row document gives width 3. -/
theorem claim4_gutter_width :
    (∀ st : state_t, 1 ≤ num_rows st.buf →
        (update_padding_front st).padding_front =
            (Nat.digits 10 (num_rows st.buf)).length + 1 ∧
          2 ≤ (update_padding_front st).padding_front) ∧
      (∀ st : state_t, num_rows st.buf = 9 →
        (update_padding_front st).padding_front = 2) ∧
      (∀ st : state_t, num_rows st.buf = 10 →
        (update_padding_front st).padding_front = 3) := by
  refine ⟨fun st h => ⟨?_, ?_⟩, fun st h => ?_, fun st h => ?_⟩
  · simp [update_padding_front, num_digits_spec]
  · have := num_digits_pos (num_rows st.buf) h
    simp only [update_padding_front]
    omega
  · simp only [update_padding_front, h]
    decide
  · simp only [update_padding_front, h]
    decide

/-- C4 witness: the 9-row document gives gutter width 2 (which is at least
2) and the 10-row document gives width 3. -/
theorem claim4_witness :
    2 ≤ (update_padding_front c4_state9).padding_front ∧
      (update_padding_front c4_state9).padding_front = 2 ∧
      (update_padding_front c4_state10).padding_front = 3 :=
  ⟨(claim4_gutter_width.1 c4_state9 (by decide)).2,
    claim4_gutter_width.2.1 c4_state9 (by decide),
    claim4_gutter_width.2.2 c4_state10 (by decide)⟩

/-- C9: the backward-delete handler terminates on every input — its
recursive self-call (the `InsertAfter`, offset-0, more-than-one-character
normalization) recurses at most once, so a recursion budget of 2 already
computes the final result (`handle_backspace_core` never returns `none`
with budget 2, and larger budgets change nothing). -/
theorem claim9_backspace_terminates (st : state_t) (fuel : Nat) :
    handle_backspace_core (fuel + 2) st = handle_backspace_core 2 st ∧
      (handle_backspace_core 2 st).isSome = true := by
  have e1 : fuel + 2 = fuel + 1 + 1 := rfl
  have e2 : (2 : Nat) = 1 + 1 := rfl
  cases hm : st.mode with
  | NORMAL =>
      rw [e1, e2, handle_backspace_core_normal (fuel + 1) st hm,
        handle_backspace_core_normal 1 st hm]
      exact ⟨rfl, rfl⟩
  | EX =>
      rw [e1, e2, handle_backspace_core_ex (fuel + 1) st hm,
        handle_backspace_core_ex 1 st hm]
      exact ⟨rfl, rfl⟩
  | INSERT_FRONT =>
      rw [e1, e2, handle_backspace_core_front (fuel + 1) st hm,
        handle_backspace_core_front 1 st hm]
      exact ⟨rfl, rfl⟩
  | INSERT_BACK =>
      rw [e1, e2, handle_backspace_core_back (fuel + 1) st hm,
        handle_backspace_core_back 1 st hm]
      refine ⟨?_, ?_⟩
      · rfl
      · rw [handle_backspace_core_front_one _ rfl]
        repeat (first | rfl | split)

/-- C7: in `InsertBefore` mode, under the handlers' precondition of a
valid, non-null current character reference, backward delete joins the
current line with the previous line and marks relayout needed — changing
nothing else — exactly when there is no character before the cursor
(offset 0); otherwise it moves the cursor left and deletes the character
now under the cursor: the line loses the character at `current_char - 1`,
the cursor lands on that offset, and the row count and relayout flag are
untouched. -/
theorem claim7_insert_before_backspace (st : state_t)
    (hm : st.mode = .INSERT_FRONT)
    (hcur : st.buf.current_char < line_size st.buf) :
    (st.buf.current_char = 0 →
        handle_backspace st = { st with buf := join_row st.buf, to_refresh := true }) ∧
      (0 < st.buf.current_char →
        handle_backspace st =
            { st with buf := delete_char (move_current st.buf .LEFT) } ∧
          (handle_backspace st).buf.lines =
            st.buf.lines.set st.buf.current_row
              ((curLine st.buf).eraseIdx (st.buf.current_char - 1)) ∧
          (handle_backspace st).buf.current_char = st.buf.current_char - 1 ∧
          (handle_backspace st).to_refresh = st.to_refresh ∧
          num_rows (handle_backspace st).buf = num_rows st.buf) := by
  have hb : handle_backspace st =
      if st.buf.current_char = 0 then
        { st with buf := join_row st.buf, to_refresh := true }
      else { st with buf := delete_char (move_current st.buf .LEFT) } := by
    unfold handle_backspace
    rw [show (2 : Nat) = 1 + 1 from rfl, handle_backspace_core_front 1 st hm]
    split <;> rfl
  constructor
  · intro h0
    rw [hb, if_pos h0]
  · intro hpos
    rw [hb, if_neg (by omega)]
    have hlt : st.buf.current_char - 1 < (curLine st.buf).length := by
      have := hcur
      unfold line_size at this
      omega
    have hn := List.length_eraseIdx_of_lt hlt
    refine ⟨rfl, rfl, ?_, rfl, ?_⟩
    · show min (st.buf.current_char - 1)
        (((curLine { st.buf with current_char := st.buf.current_char - 1 }).eraseIdx
          (st.buf.current_char - 1)).length - 1) = st.buf.current_char - 1
      have hcl : curLine { st.buf with current_char := st.buf.current_char - 1 }
          = curLine st.buf := rfl
      rw [hcl, hn]
      have := hcur
      unfold line_size at this
      omega
    · simp [delete_char, move_current, num_rows]

/-- C7 witness: `InsertBefore` at offset 0 of the second line joins the
two lines into one and marks relayout. -/
theorem claim7_witness :
    handle_backspace c7_state =
        { c7_state with buf := join_row c7_state.buf, to_refresh := true } ∧
      (handle_backspace c7_state).buf.lines = [['a', 'b', 'c']] ∧
      num_rows (handle_backspace c7_state).buf = 1 ∧
      (handle_backspace c7_state).to_refresh = true := by
  refine ⟨(claim7_insert_before_backspace c7_state rfl (by decide)).1 rfl, ?_, ?_, ?_⟩
    <;> decide

/-- C8 counterexample: in `InsertAfter` mode on the line `"abc"` with the
cursor at offset 1, backward delete removes `'b'`, so the character `'c'`
still follows the deletion point (index 1 of the resulting 2-character
line) — yet the handler leaves the cursor at offset 1 instead of moving it
left to 0, refuting the claimed "moves the cursor left exactly when a
character still follows the deletion point". -/
theorem claim8_counterexample :
    (handle_backspace c8_cex_state).buf.lines = [['a', 'c']] ∧
      1 < (['a', 'c'] : List Char).length ∧
      (handle_backspace c8_cex_state).buf.current_char = 1 := by decide

/-- C8 (amended): in `InsertAfter` mode with the cursor at offset 0 on a
line with exactly one character, backward delete deletes that character
and returns without joining lines and without changing the row count; at
any nonzero offset on a non-empty line it deletes the character at the
cursor and then moves the cursor left exactly when at least **two**
characters remain at or after the deletion point (`current_char + 2 <
lineLength`, i.e. the character now under the cursor has a successor);
when only the last character was deleted the document itself clamps the
cursor back onto the new last character. -/
theorem claim8_insert_after_backspace (st : state_t)
    (hm : st.mode = .INSERT_BACK) :
    (st.buf.current_char = 0 ∧ line_size st.buf = 1 →
        handle_backspace st = { st with buf := delete_char st.buf } ∧
          line_size (handle_backspace st).buf = 0 ∧
          num_rows (handle_backspace st).buf = num_rows st.buf) ∧
      (0 < st.buf.current_char ∧ st.buf.current_char < line_size st.buf →
        (handle_backspace st).buf.lines =
            st.buf.lines.set st.buf.current_row
              ((curLine st.buf).eraseIdx st.buf.current_char) ∧
          (handle_backspace st).buf.current_char =
            (if st.buf.current_char + 2 < line_size st.buf then
              st.buf.current_char - 1
            else min st.buf.current_char (line_size st.buf - 2)) ∧
          num_rows (handle_backspace st).buf = num_rows st.buf ∧
          (handle_backspace st).to_refresh = st.to_refresh) := by
  have hb : handle_backspace st =
      (if line_size st.buf ≤ st.buf.current_char then
        { st with buf := join_row st.buf, to_refresh := true }
      else if st.buf.current_char = 0 then
        if line_size st.buf = 1 then
          { st with buf := delete_char st.buf }
        else
          (handle_backspace_core 1
            { st with mode := .INSERT_FRONT, buf := move_current st.buf .RIGHT }).getD st
      else
        { st with buf :=
          if (delete_char st.buf).current_char + 1 < line_size (delete_char st.buf) then
            move_current (delete_char st.buf) .LEFT
          else delete_char st.buf }) := by
    unfold handle_backspace
    rw [show (2 : Nat) = 1 + 1 from rfl, handle_backspace_core_back 1 st hm]
    split
    · rfl
    · split
      · split <;> rfl
      · rfl
  constructor
  · rintro ⟨h0, h1⟩
    rw [hb, if_neg (by omega), if_pos h0, if_pos h1]
    have hrow : st.buf.current_row < num_rows st.buf :=
      line_size_row_lt st.buf (by omega)
    refine ⟨rfl, ?_, ?_⟩
    · show ((st.buf.lines.set st.buf.current_row
          ((curLine st.buf).eraseIdx st.buf.current_char)).getD
            st.buf.current_row []).length = 0
      rw [getD_set_self _ _ _ (by unfold num_rows at hrow; omega)]
      have hlt : st.buf.current_char < (curLine st.buf).length := by
        have := h1; unfold line_size at this; omega
      rw [List.length_eraseIdx_of_lt hlt]
      have := h1; unfold line_size at this; omega
    · simp [delete_char, num_rows]
  · rintro ⟨hpos, hlt⟩
    rw [hb, if_neg (by omega), if_neg (by omega)]
    have hcl : st.buf.current_char < (curLine st.buf).length := by
      have := hlt; unfold line_size at this; omega
    have hrow : st.buf.current_row < num_rows st.buf :=
      line_size_row_lt st.buf (by omega)
    have hn : ((curLine st.buf).eraseIdx st.buf.current_char).length
        = line_size st.buf - 1 := by
      rw [List.length_eraseIdx_of_lt hcl]
      rfl
    have hls : line_size (delete_char st.buf) = line_size st.buf - 1 := by
      show ((st.buf.lines.set st.buf.current_row
        ((curLine st.buf).eraseIdx st.buf.current_char)).getD
          st.buf.current_row []).length = line_size st.buf - 1
      rw [getD_set_self _ _ _ (by unfold num_rows at hrow; omega)]
      exact hn
    have hcc : (delete_char st.buf).current_char
        = min st.buf.current_char (line_size st.buf - 2) := by
      show min st.buf.current_char
        (((curLine st.buf).eraseIdx st.buf.current_char).length - 1)
          = min st.buf.current_char (line_size st.buf - 2)
      rw [hn]
      omega
    by_cases hc : st.buf.current_char + 2 < line_size st.buf
    · rw [if_pos (by rw [hcc, hls]; omega)]
      refine ⟨rfl, ?_, ?_, rfl⟩
      · show (delete_char st.buf).current_char - 1
          = if st.buf.current_char + 2 < line_size st.buf then
              st.buf.current_char - 1
            else min st.buf.current_char (line_size st.buf - 2)
        rw [hcc, if_pos hc]
        omega
      · simp [delete_char, move_current, num_rows]
    · rw [if_neg (by rw [hcc, hls]; omega)]
      refine ⟨rfl, ?_, ?_, rfl⟩
      · show (delete_char st.buf).current_char
          = if st.buf.current_char + 2 < line_size st.buf then
              st.buf.current_char - 1
            else min st.buf.current_char (line_size st.buf - 2)
        rw [hcc, if_neg hc]
      · simp [delete_char, num_rows]

/-- C8 witness: in `InsertAfter` at offset 1 of `"abcd"` (so at least two
characters follow the deletion point), backward delete removes `'b'` and
moves the cursor left to offset 0. -/
theorem claim8_witness :
    (handle_backspace c8_wit_state).buf.lines = [['a', 'c', 'd']] ∧
      (handle_backspace c8_wit_state).buf.current_char = 0 := by
  have h := (claim8_insert_after_backspace c8_wit_state rfl).2 ⟨by decide, by decide⟩
  refine ⟨?_, ?_⟩
  · rw [h.1]
    decide
  · rw [h.2.1]
    decide

/-- C10: for every mode, including `Normal` and `CommandLine` (`EX`), the
line-break handler splits the document's current line at the current
cursor offset and sets the relayout flag: in `Normal` or `CommandLine`
mode no branch prevents the split, so the handler still mutates the
document structure (the row count grows by one and the current line is
replaced by its two halves). -/
theorem claim10_enter_all_modes (st : state_t)
    (hm : st.mode = .NORMAL ∨ st.mode = .EX)
    (hrow : st.buf.current_row < num_rows st.buf) :
    handle_enter st = { st with buf := split_row st.buf, to_refresh := true } ∧
      num_rows (handle_enter st).buf = num_rows st.buf + 1 ∧
      (handle_enter st).buf.lines =
        st.buf.lines.take st.buf.current_row
          ++ [(curLine st.buf).take st.buf.current_char,
              (curLine st.buf).drop st.buf.current_char]
          ++ st.buf.lines.drop (st.buf.current_row + 1) := by
  have hmb : ¬ st.mode = .INSERT_BACK := by
    rcases hm with h | h <;> simp [h]
  have he : handle_enter st =
      { st with buf := split_row st.buf, to_refresh := true } := by
    unfold handle_enter
    rw [if_neg (by simp [hmb]), if_neg (by simp [hmb])]
  refine ⟨he, ?_, by rw [he]; rfl⟩
  rw [he]
  show (st.buf.lines.take st.buf.current_row
      ++ [(curLine st.buf).take st.buf.current_char,
          (curLine st.buf).drop st.buf.current_char]
      ++ st.buf.lines.drop (st.buf.current_row + 1)).length
    = st.buf.lines.length + 1
  simp
  unfold num_rows at hrow
  omega

/-- C10 witness: pressing line-break in `Normal` mode at offset 1 of
`"abc"` splits the document's only line into `"a"` and `"bc"` and
increases the row count to 2. -/
theorem claim10_witness :
    handle_enter c10_state =
        { c10_state with buf := split_row c10_state.buf, to_refresh := true } ∧
      num_rows (handle_enter c10_state).buf = 2 ∧
      (handle_enter c10_state).buf.lines = [['a'], ['b', 'c']] := by
  have h := claim10_enter_all_modes c10_state (Or.inl rfl) (by decide)
  refine ⟨h.1, h.2.1, ?_⟩
  rw [h.2.2]
  decide

/-- C3 counterexample: on a state with the relayout flag pending,
`update_state` executes its steps in the order status text → scroll →
padding → mapping → cursor, not in the claimed order padding → status →
scroll → mapping → cursor. -/
theorem claim3_counterexample :
    update_state_trace c3_state ≠
      [UpdateStep.paddingStep, UpdateStep.statusStep, UpdateStep.scrollStep,
        UpdateStep.mappingStep, UpdateStep.cursorStep] := by decide

/-- C3 (amended): **every** call of the state-recompute entry point
performs its derivation steps in the fixed order status text first, then
scroll position, then padding width, then display-row mapping, then
cursor coordinates, the display-row mapping step being executed exactly
on the calls where the relayout flag is pending when it is checked
(after the status and scroll steps have run).  In particular a call with
the flag set at entry runs all five steps in that order, and an idle
call — flag clear and current row already inside the viewport, so the
scroll step does not set it — runs the four remaining steps in that
order with the mapping step skipped. -/
theorem claim3_update_order (st : state_t) :
    (update_state_trace st =
        [UpdateStep.statusStep, UpdateStep.scrollStep, UpdateStep.paddingStep]
          ++ (if (update_padding_front (update_top_row
                (update_mode_status st))).to_refresh = true then
              [UpdateStep.mappingStep] else [])
          ++ [UpdateStep.cursorStep]) ∧
      (st.to_refresh = true →
        update_state_trace st =
          [UpdateStep.statusStep, UpdateStep.scrollStep, UpdateStep.paddingStep,
            UpdateStep.mappingStep, UpdateStep.cursorStep]) ∧
      (st.to_refresh = false →
        st.top_row ≤ st.buf.current_row →
        st.buf.current_row < st.top_row + st.scr.num_windows →
        update_state_trace st =
          [UpdateStep.statusStep, UpdateStep.scrollStep, UpdateStep.paddingStep,
            UpdateStep.cursorStep]) := by
  have htr : update_state_trace st =
      [UpdateStep.statusStep, UpdateStep.scrollStep, UpdateStep.paddingStep]
        ++ (if (update_padding_front (update_top_row
              (update_mode_status st))).to_refresh = true then
            [UpdateStep.mappingStep] else [])
        ++ [UpdateStep.cursorStep] := rfl
  refine ⟨htr, fun h => ?_, fun h h1 h2 => ?_⟩
  · rw [htr, upf_to_refresh, update_top_row_refresh_true (update_mode_status st)
      (by rw [ums_to_refresh]; exact h)]
    rfl
  · rw [htr, upf_to_refresh, update_top_row_no_fire (update_mode_status st)
      (by simpa using h1) (by simpa using h2), ums_to_refresh, h]
    rfl

/-- C3 witness: on the concrete pending-relayout state the executed order
is status → scroll → padding → mapping → cursor, and on the concrete idle
state (flag clear, current row inside the viewport) it is status → scroll
→ padding → cursor with the mapping step skipped. -/
theorem claim3_witness :
    update_state_trace c3_state =
        [UpdateStep.statusStep, UpdateStep.scrollStep, UpdateStep.paddingStep,
          UpdateStep.mappingStep, UpdateStep.cursorStep] ∧
      update_state_trace c3_idle_state =
        [UpdateStep.statusStep, UpdateStep.scrollStep, UpdateStep.paddingStep,
          UpdateStep.cursorStep] :=
  ⟨(claim3_update_order c3_state).2.1 rfl,
    (claim3_update_order c3_idle_state).2.2 rfl (by decide) (by decide)⟩

/-- C5: for every document and viewport with
`topRow ≤ currentRow < topRow + numWindows` and a current row inside the
document, the Display-Row Mapper assigns the document line at index `j` to
display slot `j − topRow` with 1-based line number `j + 1`, for every `j`
in `[topRow, topRow + numWindows)` that lies within the document, and sets
every remaining slot to the empty marker (no line reference, line number
0). -/
theorem claim5_display_row_mapper (st : state_t)
    (h1 : st.top_row ≤ st.buf.current_row)
    (h2 : st.buf.current_row < st.top_row + st.scr.num_windows)
    (h3 : st.buf.current_row < num_rows st.buf) :
    ∀ j, st.top_row ≤ j → j < st.top_row + st.scr.num_windows →
      (update_scr_windows st).scr.windows (j - st.top_row) =
        (if j < num_rows st.buf then ⟨some j, j + 1⟩ else ⟨none, 0⟩) := by
  intro j hj1 hj2
  have hwin : (update_scr_windows st).scr.windows =
      (fwdLoop (num_rows st.buf) st.top_row
        (st.top_row + st.scr.num_windows - (st.buf.current_row + 1))
        (backLoop st.top_row st.buf.current_row
          (st.buf.current_row + 1 - st.top_row)
          st.scr.windows st.buf.dirty st.buf.current_row st.top_row).1
        (backLoop st.top_row st.buf.current_row
          (st.buf.current_row + 1 - st.top_row)
          st.scr.windows st.buf.dirty st.buf.current_row st.top_row).2
        (rowNext (num_rows st.buf) st.buf.current_row)
        (st.buf.current_row + 1)).1 := by
    unfold update_scr_windows
    split <;> rfl
  rw [hwin,
    show rowNext (num_rows st.buf) st.buf.current_row =
      (if st.buf.current_row + 1 < num_rows st.buf then
        some (st.buf.current_row + 1) else none) from rfl,
    fwdLoop_win (num_rows st.buf) st.top_row _ (st.buf.current_row + 1) _ _
      (j - st.top_row) (by omega)]
  by_cases hj : j ≤ st.buf.current_row
  · rw [if_neg (by omega),
      backLoop_win st.top_row st.buf.current_row _ st.top_row
        st.buf.current_row _ _ (j - st.top_row) (by omega),
      if_pos (by omega), if_pos (by omega)]
    have e1 : st.buf.current_row -
        (st.buf.current_row + 1 - st.top_row - 1 - (j - st.top_row)) = j := by
      omega
    have e2 : st.top_row + (j - st.top_row) + 1 = j + 1 := by omega
    rw [e1, e2]
  · rw [if_pos (by omega),
      show st.top_row + (j - st.top_row) = j from by omega]

/-- C5 witness: the spec's worked example — rows `L0..L9`, `topRow = 3`,
`numWindows = 4`, `currentRow = 5` — yields slots
`{0 ↦ L3, 1 ↦ L4, 2 ↦ L5, 3 ↦ L6}` with line numbers 4..7. -/
theorem claim5_witness :
    (update_scr_windows c5_state).scr.windows 0 = ⟨some 3, 4⟩ ∧
      (update_scr_windows c5_state).scr.windows 1 = ⟨some 4, 5⟩ ∧
      (update_scr_windows c5_state).scr.windows 2 = ⟨some 5, 6⟩ ∧
      (update_scr_windows c5_state).scr.windows 3 = ⟨some 6, 7⟩ := by
  have h := claim5_display_row_mapper c5_state (by decide) (by decide) (by decide)
  exact ⟨h 3 (by decide) (by decide), h 4 (by decide) (by decide),
    h 5 (by decide) (by decide), h 6 (by decide) (by decide)⟩

/-- C6: recomputing state is idempotent — if no document mutation occurs
between two consecutive calls of the state-recompute entry point, the
second call leaves the whole editor state (cursor coordinates, `topRow`,
gutter width, display-row mapping, dirty flags, relayout flag and
status-line text) identical to the state after the first call. -/
theorem claim6_update_state_idempotent (st : state_t) :
    update_state (update_state st) = update_state st := by
  by_cases hn : st.scr.num_windows = 0
  · exact update_state_idem_zero st hn
  · exact update_state_idem_pos st (by omega)

end Viw
